import Mathlib

/-!
Shallow embedding of the graph-to-circuit orchestration layer of
`src/graph/mod.rs` (the `GraphSettings` / `GraphCircuit` types, the
calibration loop, the data-source adapters, and the synthesis step order),
together with proofs of the spec's claims about it.

Conventions of the embedding:
* machine integers (`usize`, `u32`, `i128`) become `Nat` / `Int`; none of the
  verified paths exercise wrap-around, and where the source could overflow or
  underflow (e.g. `bits as u32 - 1` at `bits = 0`) the difference is noted at
  the definition;
* the BN254 scalar-field elements stored in tensors are represented by `Int`
  through the canonical signed encoding (`i128_to_felt` is injective on the
  i128 range, so nothing in these claims depends on the field reduction);
* fallible Rust code returns `Except String`; a Rust `panic!` inside a
  function that returns `Result` is modelled as an `Except.error` whose
  message starts with `panic:`;
* collaborators that live outside `src/graph/mod.rs` (the `Model`, the
  `GraphModules` coordinator, the Ethereum client, `quantize_float`, the
  tensor crate, serde) are modelled from the spec; each such definition
  carries a doc comment starting with `Modelled from the spec:`;
* network and layout side effects are made observable as explicit event
  lists returned alongside the result, so that "before any network call"
  and "skips this step" are statable.
-/

namespace EzklGraph

/-! ## Visibility and run configuration -/

/-- Modelled from the spec: visibility of a tensor class (`RunArgs` is
consumed read-only from `crate::commands`, outside this file); values are
public / private / hashed / encrypted. -/
inductive Visibility where
  | Public
  | Private
  | Hashed
  | Encrypted
deriving DecidableEq, Repr

/-- Modelled from the spec: only the `Public` visibility is public. -/
def Visibility.is_public : Visibility → Bool
  | .Public => true
  | _ => false

/-- Modelled from the spec: hashed / encrypted classes are routed through a
commitment module and so require processing. -/
def Visibility.requires_processing : Visibility → Bool
  | .Hashed => true
  | .Encrypted => true
  | _ => false

/-- Modelled from the spec: run configuration (`RunArgs`, consumed read-only
from `crate::commands`): fixed-point `scale`, lookup bit-width `bits`,
row-count exponent `logrows`, and the three visibility knobs. -/
structure RunArgs where
  scale : Nat
  bits : Nat
  logrows : Nat
  input_visibility : Visibility
  output_visibility : Visibility
  param_visibility : Visibility
deriving DecidableEq, Repr

/-- Modelled from the spec: `VarVisibility::from_args` extracts the three
per-class visibilities from the run configuration (`graph/vars.rs` is outside
this file). -/
structure VarVisibility where
  input : Visibility
  params : Visibility
  output : Visibility
deriving DecidableEq, Repr

/-- Modelled from the spec: the extraction of `VarVisibility` from `RunArgs`
(its failure mode, a fully-private circuit, is not exercised by any claim and
is omitted). -/
def VarVisibility.from_args (r : RunArgs) : VarVisibility :=
  ⟨r.input_visibility, r.param_visibility, r.output_visibility⟩

/-! ## Tensors -/

/-- Modelled from the spec: a tensor of the tensor crate (outside this file)
is a flat row-major data buffer together with its dimensions. -/
structure Tensor (α : Type) where
  data : List α
  dims : List Nat
deriving DecidableEq, Repr

/-- Modelled from the spec: `reshape` only re-labels the dimensions, the
buffer is untouched; a dimension mismatch (buffer length differing from the
product of the new dimensions) is an error — an assertion failure in the
source's tensor crate. -/
def Tensor.reshape (t : Tensor α) (shape : List Nat) : Except String (Tensor α) :=
  if t.data.length = shape.prod then .ok ⟨t.data, shape⟩
  else .error "panic: dimension mismatch on reshape"

/-- Modelled from the spec: collecting an iterator into a tensor yields a
one-dimensional tensor over the buffer. -/
def Tensor.ofList (xs : List α) : Tensor α :=
  ⟨xs, [xs.length]⟩

/-! ## Module sizes and graph settings -/

/-- Modelled from the spec: `ModuleSizes` (from `graph/modules.rs`, outside
this file) records, per active sub-circuit module, its extra constraint rows
and its public-instance cell counts. -/
structure ModuleSizes where
  constraints : List Nat
  instances : List Nat
deriving DecidableEq, Repr

/-- Modelled from the spec: the instance-count contribution of each active
module, in module-slot order. -/
def ModuleSizes.num_instances (m : ModuleSizes) : List Nat :=
  m.instances

/-- Modelled from the spec: the largest per-module constraint count, used by
`GraphCircuit::new` to take a max against the model's own constraint count. -/
def ModuleSizes.max_constraints (m : ModuleSizes) : Nat :=
  m.constraints.foldr max 0

/-- Modelled from the spec: `check_mode` is a strict / relaxed toggle for
constraint verification (`CheckMode` lives in `crate::circuit`). -/
inductive CheckMode where
  | Strict
  | Relaxed
deriving DecidableEq, Repr

/-- Descriptor of a compiled circuit's shape, from `GraphSettings` in
`src/graph/mod.rs`.  `required_lookups` holds opaque lookup-operation codes
(the `LookupOp` enum lives in `crate::circuit::lookup`, outside this file,
and no claim inspects it). -/
structure GraphSettings where
  run_args : RunArgs
  num_constraints : Nat
  model_instance_shapes : List (List Nat)
  model_output_scales : List Nat
  module_sizes : ModuleSizes
  required_lookups : List Nat
  check_mode : CheckMode
deriving DecidableEq, Repr

/-- Transcription of `GraphSettings::total_instances`: the product of each
shape in `model_instance_shapes`, extended with the module instance counts. -/
def GraphSettings.total_instances (s : GraphSettings) : List Nat :=
  (s.model_instance_shapes.map (fun x => x.prod)) ++ s.module_sizes.num_instances

/-! ## The circuit state and `prepare_public_inputs` -/

/-- State of `GraphCircuit` relevant to the claims: the quantized input and
output tensors and the settings.  The `Model` itself is abstracted by
`ModelData` below. -/
structure GraphCircuitState where
  inputs : List (Tensor Int)
  outputs : List (Tensor Int)
  settings : GraphSettings
deriving DecidableEq, Repr

/-- Modelled from the spec: the shape/scale interface of the `Model`
collaborator (`graph/model.rs` is outside this file); all lists are ordered
and index-aligned. -/
structure ModelData where
  input_shapes : List (List Nat)
  output_shapes : List (List Nat)
  input_scales : List Nat
  output_scales : List Nat
  const_shapes : List (List Nat)
deriving DecidableEq, Repr

/-- Transcription of `GraphCircuit::prepare_public_inputs`: the model's
inputs if the input visibility is public, then the model's outputs if the
output visibility is public, each tensor flattened; then the
module-contributed instance vectors.  `module_instances` stands for the
result of `GraphModules::public_inputs(data, visibility)` (that collaborator
lives in `graph/modules.rs`, outside this file, so its output is taken as a
parameter). -/
def prepare_public_inputs (c : GraphCircuitState) (module_instances : List (List Int)) :
    List (List Int) :=
  let public_inputs :=
    if c.settings.run_args.input_visibility.is_public then c.inputs else []
  let public_inputs :=
    if c.settings.run_args.output_visibility.is_public then
      public_inputs ++ c.outputs
    else public_inputs
  let pi_inner := public_inputs.map (fun t => t.data)
  if module_instances.isEmpty then pi_inner else pi_inner ++ module_instances

/-! ## Calibration -/

/-- Transcription of `ASSUMED_BLINDING_FACTORS` (value 6). -/
def ASSUMED_BLINDING_FACTORS : Nat := 6

/-- Two-adicity `S` of the BN254 scalar field (`bn256::Fr::S = 28`). -/
def FR_S : Nat := 28

/-- Transcription of `MAX_PUBLIC_SRS = bn256::Fr::S - 2`; the source comments
it as 26. -/
def MAX_PUBLIC_SRS : Nat := FR_S - 2

/-- Embedding of the source's `(x as f64).log2().ceil() as usize` applied to
a (signed) `i128`: the ceiling of the base-2 logarithm for positive `x`
(`Nat.clog 2`), and `0` for non-positive `x` (where the float pipeline
produces NaN or negative infinity and the saturating cast yields `0`).  The
`f64` rounding of integers above `2^53` is modelled as exact. -/
def ceil_log2 (x : Int) : Nat :=
  if x ≤ 0 then 0 else Nat.clog 2 x.toNat

/-- Transcription of the settings-derivation part of `GraphCircuit::new`:
derive the model's own settings (`Model::gen_params`, outside this file, is
the `gen_params` parameter), size the modules over the input shapes, the one
flattened parameter shape and the output shapes (the
`GraphModules::num_constraints_and_instances` collaborator is the
`module_sizing` parameter), store those sizes and take the max of the
constraint counts since modules occupy independent rows. -/
def new_settings
    (gen_params : RunArgs → CheckMode → Except String GraphSettings)
    (module_sizing : List (List Nat) → List (List Nat) → List (List Nat) →
      VarVisibility → ModuleSizes)
    (m : ModelData) (run_args : RunArgs) (check_mode : CheckMode) :
    Except String GraphSettings :=
  match gen_params run_args check_mode with
  | .error e => .error e
  | .ok s =>
    let num_params := (m.const_shapes.map (fun shape => shape.prod)).sum
    let sizes := module_sizing m.input_shapes [[num_params]] m.output_shapes
      (VarVisibility.from_args run_args)
    .ok { s with
            module_sizes := sizes,
            num_constraints := max s.num_constraints sizes.max_constraints }

/-- Transcription of the fatal calibration diagnostic built by the source's
`format!` when no bit-width fits. -/
def calibrate_err_msg (recommended_bits scale : Nat) : String :=
  "No possible value of bits (estimate " ++ toString recommended_bits ++
    ") at scale " ++ toString scale ++ " can accomodate this value."

/-- Transcription of `GraphCircuit::calibrate`.  The plain forward pass
(`GraphCircuit::forward`, whose `max_lookup_input` comes from the `Model`
collaborator) is the oracle `fwd`, fed the current settings; the terminal
branch's re-derivation `GraphCircuit::new(model, run_args, check_mode)` is
`new_settings gen_params module_sizing m`.  The source recursion is rendered
with explicit fuel, `none` meaning the fuel ran out (the termination theorem
shows `MAX_PUBLIC_SRS + 1` units of fuel always suffice).  At `bits = 0` the
source's `bits as u32 - 1` underflows and panics; the `Nat` subtraction here
yields exponent 0 instead, and the claims about that branch carry a
`1 ≤ bits` hypothesis where the difference could matter. -/
def calibrate
    (fwd : GraphSettings → Int)
    (gen_params : RunArgs → CheckMode → Except String GraphSettings)
    (module_sizing : List (List Nat) → List (List Nat) → List (List Nat) →
      VarVisibility → ModuleSizes)
    (m : ModelData) :
    Nat → GraphSettings → Option (Except String GraphSettings)
  | 0, _ => none
  | fuel + 1, s =>
    let max_lookup_input := fwd s
    let max_range : Int := 2 ^ (s.run_args.bits - 1)
    if max_range < max_lookup_input then
      let recommended_bits := ceil_log2 max_lookup_input + 1
      if recommended_bits ≤ MAX_PUBLIC_SRS - 1 then
        calibrate fwd gen_params module_sizing m fuel
          { s with run_args :=
              { s.run_args with bits := recommended_bits, logrows := recommended_bits + 1 } }
      else
        some (.error (calibrate_err_msg recommended_bits s.run_args.scale))
    else
      let min_bits := ceil_log2 max_lookup_input + 1
      let min_rows_from_constraints :=
        Nat.clog 2 (s.num_constraints + ASSUMED_BLINDING_FACTORS) + 1
      let logrows := max (min_bits + 1) min_rows_from_constraints
      let logrows := max logrows (ASSUMED_BLINDING_FACTORS + 1)
      let logrows := min logrows MAX_PUBLIC_SRS
      some (new_settings gen_params module_sizing m
        { s.run_args with bits := min_bits, logrows := logrows } s.check_mode)

/-! ## Error-propagating map -/

/-- Rendering of Rust's `collect::<Result<Vec<_>, _>>` / iterator-of-results
pattern: apply `f` to every element, stopping at the first error. -/
def exMapM (f : α → Except String β) : List α → Except String (List β)
  | [] => .ok []
  | a :: tl =>
    match f a, exMapM f tl with
    | .ok b, .ok bs => .ok (b :: bs)
    | .error e, _ => .error e
    | .ok _, .error e => .error e

/-! ## Quantization -/

/-- Largest `i128` value. -/
def I128_MAX : Int := 2 ^ 127 - 1

/-- Smallest `i128` value. -/
def I128_MIN : Int := -(2 ^ 127)

/-- Modelled from the spec: `quantize_float(value, zero_point, scale)` (from
`graph/utilities.rs`, outside this file) maps a real value — represented
exactly as a rational — to a fixed-point integer at resolution `2^scale`
(`round(v * 2^scale)`, the zero point shifting the result), failing on
overflow of the `i128` intermediate representation. -/
def quantize_float (x zero_point : Rat) (scale : Nat) : Except String Int :=
  let q := round (x * (2 : Rat) ^ scale + zero_point)
  if q < I128_MIN ∨ I128_MAX < q then .error "quantization overflow"
  else .ok q

/-- Modelled from the spec: `scale_to_multiplier(scale) = 2^scale` as a real
number, represented exactly as a rational. -/
def scale_to_multiplier (scale : Nat) : Rat :=
  (2 : Rat) ^ scale

/-- Modelled from the spec: `i128_to_felt` (from `crate::fieldutils`, outside
this file) is the canonical signed encoding of an `i128` into the BN254
scalar field; it is injective on the whole `i128` range, so the field element
is represented here by the integer itself. -/
def i128_to_felt (x : Int) : Int := x

/-! ## Data sources -/

/-- Descriptor of an on-chain source (`OnChainSourceInner`): an rpc endpoint
and the declared read calls (call descriptors are opaque to the claims). -/
structure OnChainSourceInner where
  rpc : String
  calls : List String
deriving DecidableEq, Repr

/-- Raw-or-quantized file data plus on-chain variants, from
`input::DataSource`: file data is raw numeric arrays, one per tensor. -/
inductive DataSource where
  | File (d : List (List Rat))
  | OnChain (s : OnChainSourceInner)
deriving DecidableEq, Repr

/-- Witness sources (`input::WitnessSource`): file data is already quantized
field values, one array per tensor. -/
inductive WitnessSource where
  | File (d : List (List Int))
  | OnChain (s : OnChainSourceInner)
deriving DecidableEq, Repr

/-- Witness record (`GraphWitness`): input and output data sources.  Derived
module witness state is not inspected by any claim and is omitted. -/
structure GraphWitness where
  input_data : WitnessSource
  output_data : WitnessSource
deriving DecidableEq, Repr

/-- Network calls made by the on-chain collaborators, in order of
occurrence; used to state "fails before any network call". -/
inductive EthCall where
  | setup_eth_backend (rpc : Option String)
  | read_on_chain_inputs
  | evm_quantize
  | test_from_file_data
deriving DecidableEq, Repr

/-- Modelled from the spec: the results the Ethereum collaborators
(`crate::eth`, outside this file) would return; `quantize_res` receives the
flattened per-element multipliers and the raw values, `test_res` receives the
file data, scales, shapes and rpc endpoint passed to
`OnChainSourceInner::test_from_file_data`. -/
structure EthOracle where
  setup_res : Except String Unit
  read_res : Except String (List Int)
  quantize_res : List Rat → List Int → Except String (List Int)
  test_res : List (List Int) → List Nat → List (List Nat) → Option String →
    Except String (List (Tensor Int) × OnChainSourceInner)

/-- Transcription of the reshape loop that ends
`GraphCircuit::load_on_chain_data`: the source zips
`vec![quantized_evm_inputs]` — a one-element vector — against the declared
shapes, so at most the first shape is ever consumed. -/
def reshape_quantized (quantized : List Int) (shapes : List (List Nat)) :
    Except String (List (Tensor Int)) :=
  exMapM (fun p => (Tensor.ofList p.1).reshape p.2) ([quantized].zip shapes)

/-- Transcription of `GraphCircuit::load_on_chain_data`: connect to the
endpoint, execute the declared reads, quantize on-chain with the per-element
multipliers (`scale_to_multiplier` of each per-element scale), then reshape
the already-quantized values.  Returns the network calls made alongside the
result. -/
def load_on_chain_data (o : EthOracle) (source : OnChainSourceInner)
    (shapes : List (List Nat)) (scales : List Nat) :
    List EthCall × Except String (List (Tensor Int)) :=
  let ev1 : List EthCall := [.setup_eth_backend (some source.rpc)]
  match o.setup_res with
  | .error e => (ev1, .error e)
  | .ok _ =>
    let ev2 := ev1 ++ [.read_on_chain_inputs]
    match o.read_res with
    | .error e => (ev2, .error e)
    | .ok raw =>
      let ev3 := ev2 ++ [.evm_quantize]
      match o.quantize_res (scales.map scale_to_multiplier) raw with
      | .error e => (ev3, .error e)
      | .ok quantized => (ev3, reshape_quantized quantized shapes)

/-- Transcription of `GraphCircuit::load_file_data`: for each
(raw-array, shape, scale) triple, quantize each element independently at that
scale, convert to field elements, and reshape to the declared shape.  The
source's `.unwrap()` on a quantization failure (a panic) is rendered as error
propagation. -/
def load_file_data (file_data : List (List Rat)) (shapes : List (List Nat))
    (scales : List Nat) : Except String (List (Tensor Int)) :=
  exMapM (fun p =>
      match exMapM (fun x => (quantize_float x 0 p.2).map i128_to_felt) p.1.1 with
      | .error e => .error e
      | .ok q => (Tensor.ofList q).reshape p.1.2)
    ((file_data.zip shapes).zip scales)

/-- Transcription of `GraphCircuit::load_witness_file_data`: values are
already quantized; only reshape is applied. -/
def load_witness_file_data (file_data : List (List Int)) (shapes : List (List Nat)) :
    Except String (List (Tensor Int)) :=
  exMapM (fun p => (Tensor.ofList p.1).reshape p.2) (file_data.zip shapes)

/-- Transcription of the per-item scale expansion shared by
`process_data_source` and `process_witness_source`: scale `i` is repeated
once per element of shape `i`.  (The source indexes `scales[i]`; the call
sites always supply one scale per shape, which the zip renders.) -/
def per_item_scales (shapes : List (List Nat)) (scales : List Nat) : List Nat :=
  ((shapes.zip scales).map (fun p => List.replicate p.1.prod p.2)).flatten

/-- Transcription of `GraphCircuit::process_data_source` (non-wasm): on-chain
sources go straight to `load_on_chain_data` with the expanded per-item
scales — there is no visibility check on this path — and file sources go to
`load_file_data`. -/
def process_data_source (o : EthOracle) (data : DataSource)
    (shapes : List (List Nat)) (scales : List Nat) :
    List EthCall × Except String (List (Tensor Int)) :=
  match data with
  | .OnChain source => load_on_chain_data o source shapes (per_item_scales shapes scales)
  | .File file_data => ([], load_file_data file_data shapes scales)

/-- Transcription of `GraphCircuit::process_witness_source` (non-wasm):
identical dispatch, with witness-file loading on the file path. -/
def process_witness_source (o : EthOracle) (data : WitnessSource)
    (shapes : List (List Nat)) (scales : List Nat) :
    List EthCall × Except String (List (Tensor Int)) :=
  match data with
  | .OnChain source => load_on_chain_data o source shapes (per_item_scales shapes scales)
  | .File file_data => ([], load_witness_file_data file_data shapes)

/-- Transcription of `GraphCircuit::load_graph_input` (non-wasm): the model's
input shapes, one copy of `run_args.scale` per input tensor, then
`process_data_source`. -/
def load_graph_input (o : EthOracle) (st : GraphCircuitState) (m : ModelData)
    (input_data : DataSource) :
    List EthCall × Except String (List (Tensor Int)) :=
  let shapes := m.input_shapes
  let scales := List.replicate shapes.length st.settings.run_args.scale
  process_data_source o input_data shapes scales

/-! ## On-chain test-data population -/

/-- Requested source for one side of a test (`TestDataSource`). -/
inductive TestDataSource where
  | File
  | OnChain
deriving DecidableEq, Repr

/-- Test configuration (`TestOnChainData`); the witness file path only feeds
the final save and is omitted. -/
structure TestOnChainData where
  rpc : Option String
  input_source : TestDataSource
  output_source : TestDataSource
deriving Repr

/-- Record of one `process_witness_source` invocation — which source, shapes
and scales it was asked to read; used to state which data the population
routine consults. -/
structure WitnessCall where
  source : WitnessSource
  shapes : List (List Nat)
  scales : List Nat
deriving DecidableEq, Repr

/-- Transcription of the input half of
`GraphCircuit::populate_on_chain_test_data`: when the test requests an
on-chain input, a non-public input visibility is rejected before anything
else (the source `return Err` precedes the network-backed
`test_from_file_data`); an already-on-chain witness source panics; otherwise
the file data is pushed on chain.  When the test requests a file input, the
witness input source is processed as usual.  Returns the network calls, the
`process_witness_source` invocations, and on success the new input tensors
plus the (possibly swapped) input source. -/
def populate_input_phase (o : EthOracle) (st : GraphCircuitState) (m : ModelData)
    (data : GraphWitness) (t : TestOnChainData) :
    List EthCall × List WitnessCall ×
      Except String (List (Tensor Int) × WitnessSource) :=
  match t.input_source with
  | .OnChain =>
    if st.settings.run_args.input_visibility.is_public = false then
      ([], [], .error "Cannot use on-chain data source as private data")
    else
      match data.input_data with
      | .OnChain _ =>
        ([], [], .error "panic: Cannot use on-chain data source as input for on-chain test")
      | .File input_data =>
        let length := (input_data.map List.length).sum
        let scales := List.replicate length st.settings.run_args.scale
        match o.test_res input_data scales m.input_shapes t.rpc with
        | .error e => ([.test_from_file_data], [], .error e)
        | .ok (ts, src) => ([.test_from_file_data], [], .ok (ts, .OnChain src))
  | .File =>
    let r := process_witness_source o data.input_data m.input_shapes m.input_scales
    (r.1, [⟨data.input_data, m.input_shapes, m.input_scales⟩],
      match r.2 with
      | .error e => .error e
      | .ok ts => .ok (ts, data.input_data))

/-- Transcription of the output half of
`GraphCircuit::populate_on_chain_test_data`.  The fallback branch (file
output requested) is the source's lines 743–749: it processes
`data.input_data` with the model's *input* shapes and the model's *output*
scales — not `data.output_data` with the output shapes. -/
def populate_output_phase (o : EthOracle) (st : GraphCircuitState) (m : ModelData)
    (data : GraphWitness) (t : TestOnChainData) :
    List EthCall × List WitnessCall ×
      Except String (List (Tensor Int) × WitnessSource) :=
  match t.output_source with
  | .OnChain =>
    if st.settings.run_args.output_visibility.is_public = false then
      ([], [], .error "Cannot use on-chain data source as private data")
    else
      match data.output_data with
      | .OnChain _ =>
        ([], [], .error "panic: Cannot use on-chain data source as output for on-chain test")
      | .File output_data =>
        match o.test_res output_data m.output_scales m.output_shapes t.rpc with
        | .error e => ([.test_from_file_data], [], .error e)
        | .ok (ts, src) => ([.test_from_file_data], [], .ok (ts, .OnChain src))
  | .File =>
    let r := process_witness_source o data.input_data m.input_shapes m.output_scales
    (r.1, [⟨data.input_data, m.input_shapes, m.output_scales⟩],
      match r.2 with
      | .error e => .error e
      | .ok ts => .ok (ts, data.output_data))

/-- Transcription of `GraphCircuit::populate_on_chain_test_data`: the input
half runs first and its error aborts the routine (the source's `?` / early
`return Err`); the output half then sees the input half's updated
`input_data`.  The final `data.save` is file I/O outside this embedding.
Returns all network calls and `process_witness_source` invocations in order,
and on success the new inputs, outputs and witness record. -/
def populate_on_chain_test_data (o : EthOracle) (st : GraphCircuitState)
    (m : ModelData) (data : GraphWitness) (t : TestOnChainData) :
    List EthCall × List WitnessCall ×
      Except String (List (Tensor Int) × List (Tensor Int) × GraphWitness) :=
  match populate_input_phase o st m data t with
  | (ev1, wc1, .error e) => (ev1, wc1, .error e)
  | (ev1, wc1, .ok (ins, new_input_data)) =>
    let data1 := { data with input_data := new_input_data }
    match populate_output_phase o st m data1 t with
    | (ev2, wc2, .error e) => (ev1 ++ ev2, wc1 ++ wc2, .error e)
    | (ev2, wc2, .ok (outs, new_output_data)) =>
      (ev1 ++ ev2, wc1 ++ wc2,
        .ok (ins, outs, { data1 with output_data := new_output_data }))

/-! ## Synthesis step order -/

/-- Delegated steps `GraphCircuit::synthesize` performs, in order; the
module-layout steps record how many tensors they are handed. -/
inductive SynthStep where
  | input_module_layout (num_tensors : Nat)
  | flatten_params
  | param_module_layout (num_tensors : Nat)
  | replace_consts
  | new_region
  | model_layout
  | output_module_layout
deriving DecidableEq, Repr

/-- Transcription of the step order of `GraphCircuit::synthesize`: the input
module is laid out over the raw inputs; the constants are flattened only when
`get_all_consts()` is non-empty, but the param-module layout call itself is
made unconditionally — over a one-element list when constants were flattened
and over the empty list otherwise; `replace_consts` runs only when constants
exist; then a fresh region separates modules from the model, the model is
laid out, and the output module is laid out over its outputs. -/
def synthesize_steps (consts : List (Tensor Int)) (num_inputs : Nat) : List SynthStep :=
  [.input_module_layout num_inputs]
    ++ (if consts.isEmpty then [] else [.flatten_params])
    ++ [.param_module_layout (if consts.isEmpty then 0 else 1)]
    ++ (if consts.isEmpty then [] else [.replace_consts])
    ++ [.new_region, .model_layout, .output_module_layout]

/-! ## JSON serialization of `GraphSettings` -/

/-- Modelled from the spec: a JSON value.  All numbers occurring in
`GraphSettings` are machine integers, so numbers are integral here. -/
inductive Json where
  | num (n : Int)
  | str (s : String)
  | arr (xs : List Json)
  | obj (fields : List (String × Json))

/-- Modelled from the spec: serde encoding of a visibility value. -/
def Visibility.toJson : Visibility → Json
  | .Public => .str "public"
  | .Private => .str "private"
  | .Hashed => .str "hashed"
  | .Encrypted => .str "encrypted"

/-- Modelled from the spec: serde decoding of a visibility value. -/
def Visibility.fromJson : Json → Except String Visibility
  | .str "public" => .ok .Public
  | .str "private" => .ok .Private
  | .str "hashed" => .ok .Hashed
  | .str "encrypted" => .ok .Encrypted
  | _ => .error "invalid visibility"

/-- Modelled from the spec: serde encoding of the check mode. -/
def CheckMode.toJson : CheckMode → Json
  | .Strict => .str "strict"
  | .Relaxed => .str "relaxed"

/-- Modelled from the spec: serde decoding of the check mode. -/
def CheckMode.fromJson : Json → Except String CheckMode
  | .str "strict" => .ok .Strict
  | .str "relaxed" => .ok .Relaxed
  | _ => .error "invalid check mode"

/-- Decoder for a JSON-encoded machine integer (all such fields are
unsigned). -/
def natFromJson : Json → Except String Nat
  | .num n => if n < 0 then .error "negative" else .ok n.toNat
  | _ => .error "expected number"

/-- Decoder for a JSON array whose elements decode with `f`. -/
def listFromJson (f : Json → Except String α) : Json → Except String (List α)
  | .arr xs => exMapM f xs
  | _ => .error "expected array"

/-- Encoder for a list of machine integers. -/
def natListToJson (xs : List Nat) : Json :=
  .arr (xs.map (fun n => .num ((n : Nat) : Int)))

/-- Modelled from the spec: serde encoding of `ModuleSizes`. -/
def ModuleSizes.toJson (m : ModuleSizes) : Json :=
  .obj [("constraints", natListToJson m.constraints),
        ("instances", natListToJson m.instances)]

/-- Modelled from the spec: serde decoding of `ModuleSizes`. -/
def ModuleSizes.fromJson : Json → Except String ModuleSizes
  | .obj [("constraints", c), ("instances", i)] =>
    match listFromJson natFromJson c, listFromJson natFromJson i with
    | .ok cs, .ok is => .ok ⟨cs, is⟩
    | _, _ => .error "invalid module sizes"
  | _ => .error "invalid module sizes"

/-- Modelled from the spec: serde encoding of `RunArgs`, fields in
declaration order. -/
def RunArgs.toJson (r : RunArgs) : Json :=
  .obj [("scale", .num r.scale), ("bits", .num r.bits), ("logrows", .num r.logrows),
        ("input_visibility", r.input_visibility.toJson),
        ("output_visibility", r.output_visibility.toJson),
        ("param_visibility", r.param_visibility.toJson)]

/-- Modelled from the spec: serde decoding of `RunArgs`. -/
def RunArgs.fromJson : Json → Except String RunArgs
  | .obj [("scale", sc), ("bits", b), ("logrows", lr),
          ("input_visibility", iv), ("output_visibility", ov),
          ("param_visibility", pv)] =>
    match natFromJson sc, natFromJson b, natFromJson lr,
        Visibility.fromJson iv, Visibility.fromJson ov, Visibility.fromJson pv with
    | .ok s, .ok bb, .ok l, .ok i, .ok o, .ok p => .ok ⟨s, bb, l, i, o, p⟩
    | _, _, _, _, _, _ => .error "invalid run args"
  | _ => .error "invalid run args"

/-- Modelled from the spec: serde encoding of `GraphSettings`, fields in
declaration order. -/
def GraphSettings.toJson (s : GraphSettings) : Json :=
  .obj [("run_args", s.run_args.toJson),
        ("num_constraints", .num s.num_constraints),
        ("model_instance_shapes", .arr (s.model_instance_shapes.map natListToJson)),
        ("model_output_scales", natListToJson s.model_output_scales),
        ("module_sizes", s.module_sizes.toJson),
        ("required_lookups", natListToJson s.required_lookups),
        ("check_mode", s.check_mode.toJson)]

/-- Modelled from the spec: serde decoding of `GraphSettings`. -/
def GraphSettings.fromJson : Json → Except String GraphSettings
  | .obj [("run_args", ra), ("num_constraints", nc),
          ("model_instance_shapes", mis), ("model_output_scales", mos),
          ("module_sizes", ms), ("required_lookups", rl), ("check_mode", cm)] =>
    match RunArgs.fromJson ra, natFromJson nc,
        listFromJson (listFromJson natFromJson) mis,
        listFromJson natFromJson mos, ModuleSizes.fromJson ms,
        listFromJson natFromJson rl, CheckMode.fromJson cm with
    | .ok r, .ok n, .ok shapes, .ok scales, .ok sizes, .ok lookups, .ok c =>
      .ok ⟨r, n, shapes, scales, sizes, lookups, c⟩
    | _, _, _, _, _, _, _ => .error "invalid graph settings"
  | _ => .error "invalid graph settings"

/-- Transcription of `GraphSettings::save` up to the file-system write:
serialize to JSON (`serde_json::to_string`; the byte-level rendering and
`File::create` are outside this embedding, and JSON text round-trips to the
same tree). -/
def GraphSettings.save (s : GraphSettings) : Json :=
  s.toJson

/-- Transcription of `GraphSettings::load` up to the file-system read:
deserialize from JSON. -/
def GraphSettings.load (j : Json) : Except String GraphSettings :=
  GraphSettings.fromJson j

/-! ## Helper lemmas -/

theorem visibility_fromJson_toJson (v : Visibility) : Visibility.fromJson v.toJson = .ok v := by
  cases v <;> rfl

theorem checkMode_fromJson_toJson (c : CheckMode) : CheckMode.fromJson c.toJson = .ok c := by
  cases c <;> rfl

theorem natFromJson_num (n : Nat) : natFromJson (.num ((n : Nat) : Int)) = .ok n := by
  simp [natFromJson]

theorem exMapM_map_ok (f : β → Except String α) (g : α → β)
    (h : ∀ a, f (g a) = .ok a) (xs : List α) : exMapM f (xs.map g) = .ok xs := by
  induction xs with
  | nil => rfl
  | cons a tl ih => simp [exMapM, h a, ih]

theorem natList_fromJson_toJson (xs : List Nat) :
    listFromJson natFromJson (natListToJson xs) = .ok xs := by
  simp only [natListToJson, listFromJson]
  exact exMapM_map_ok natFromJson (fun n => .num ((n : Nat) : Int)) natFromJson_num xs

theorem moduleSizes_fromJson_toJson (m : ModuleSizes) :
    ModuleSizes.fromJson m.toJson = .ok m := by
  cases m
  simp [ModuleSizes.toJson, ModuleSizes.fromJson, natList_fromJson_toJson]

theorem runArgs_fromJson_toJson (r : RunArgs) : RunArgs.fromJson r.toJson = .ok r := by
  cases r
  simp [RunArgs.toJson, RunArgs.fromJson, natFromJson_num, visibility_fromJson_toJson]

theorem shapes_fromJson_toJson (xs : List (List Nat)) :
    listFromJson (listFromJson natFromJson) (.arr (xs.map natListToJson)) = .ok xs := by
  simp only [listFromJson]
  exact exMapM_map_ok (listFromJson natFromJson) natListToJson natList_fromJson_toJson xs

/-! ## C6: settings round-trip -/

/-- Claim C6: for every `GraphSettings` value `s`, saving `s` as JSON and loading
it back yields `s`: `load (save s) = ok s`. -/
theorem graph_settings_load_save_roundtrip (s : GraphSettings) :
    GraphSettings.load (GraphSettings.save s) = .ok s := by
  cases s
  simp [GraphSettings.load, GraphSettings.save, GraphSettings.toJson,
    GraphSettings.fromJson, runArgs_fromJson_toJson, natFromJson_num,
    shapes_fromJson_toJson, natList_fromJson_toJson, moduleSizes_fromJson_toJson,
    checkMode_fromJson_toJson]

/-! ## C1: instance ordering and total length -/

theorem map_data_length_eq_map_dims_prod (l : List (Tensor Int))
    (h : ∀ t ∈ l, t.data.length = t.dims.prod) :
    l.map (fun t => t.data.length) = l.map (fun t => t.dims.prod) := by
  induction l with
  | nil => rfl
  | cons a tl ih =>
    simp only [List.mem_cons, forall_eq_or_imp] at h
    simp [h.1, ih h.2]

/-- Claim C1: for a circuit whose settings match its loaded witness — the public
instance shapes are the input shapes (when the input visibility is public)
followed by the output shapes (when the output visibility is public), every
tensor's buffer fills its shape, and the module-contributed vectors have the
module instance counts as lengths — `prepare_public_inputs` returns the
model's public inputs first, then its public outputs, then the module
values, and the total flattened length equals the sum of
`GraphSettings::total_instances()`. -/
theorem prepare_public_inputs_order_and_total_instances
    (c : GraphCircuitState) (module_instances : List (List Int))
    (hshapes : c.settings.model_instance_shapes =
      (if c.settings.run_args.input_visibility.is_public then
        c.inputs.map Tensor.dims else []) ++
      (if c.settings.run_args.output_visibility.is_public then
        c.outputs.map Tensor.dims else []))
    (hin : ∀ t ∈ c.inputs, t.data.length = t.dims.prod)
    (hout : ∀ t ∈ c.outputs, t.data.length = t.dims.prod)
    (hmod : module_instances.map List.length = c.settings.module_sizes.num_instances) :
    prepare_public_inputs c module_instances =
      ((if c.settings.run_args.input_visibility.is_public then c.inputs else []) ++
        (if c.settings.run_args.output_visibility.is_public then c.outputs else [])).map
          Tensor.data ++ module_instances ∧
    ((prepare_public_inputs c module_instances).map List.length).sum =
      c.settings.total_instances.sum := by
  have key : prepare_public_inputs c module_instances =
      ((if c.settings.run_args.input_visibility.is_public then c.inputs else []) ++
        (if c.settings.run_args.output_visibility.is_public then c.outputs else [])).map
          Tensor.data ++ module_instances := by
    simp only [prepare_public_inputs]
    split_ifs with h1 h2 h3 <;>
      simp_all [List.isEmpty_iff, List.map_append]
  refine ⟨key, ?_⟩
  rw [key]
  simp only [GraphSettings.total_instances, ModuleSizes.num_instances, hshapes, ← hmod,
    List.map_append, List.sum_append, List.map_map]
  have hin' := map_data_length_eq_map_dims_prod c.inputs hin
  have hout' := map_data_length_eq_map_dims_prod c.outputs hout
  cases h1 : c.settings.run_args.input_visibility.is_public <;>
    cases h2 : c.settings.run_args.output_visibility.is_public <;>
      simp [h1, h2, ModuleSizes.num_instances, List.map_append, List.sum_append,
        List.map_map, Function.comp_def, hin', hout'] <;>
    rw [hmod] <;> rfl

/-- Claim C1 witness: the theorem applied at a concrete circuit — one public input
of shape `[2]`, one public output of shape `[1]`, one module vector of
length 3 — with every hypothesis discharged by evaluation. -/
theorem prepare_public_inputs_order_and_total_instances_witness :
    prepare_public_inputs
        ⟨[⟨[10, 20], [2]⟩], [⟨[30], [1]⟩],
          ⟨⟨7, 8, 9, .Public, .Public, .Private⟩, 5, [[2], [1]], [7],
            ⟨[4], [3]⟩, [], .Strict⟩⟩ [[1, 2, 3]] =
      [[10, 20], [30], [1, 2, 3]] ∧
    ((prepare_public_inputs
        ⟨[⟨[10, 20], [2]⟩], [⟨[30], [1]⟩],
          ⟨⟨7, 8, 9, .Public, .Public, .Private⟩, 5, [[2], [1]], [7],
            ⟨[4], [3]⟩, [], .Strict⟩⟩ [[1, 2, 3]]).map List.length).sum =
      (GraphSettings.total_instances
        ⟨⟨7, 8, 9, .Public, .Public, .Private⟩, 5, [[2], [1]], [7],
          ⟨[4], [3]⟩, [], .Strict⟩).sum := by
  have h := prepare_public_inputs_order_and_total_instances
    ⟨[⟨[10, 20], [2]⟩], [⟨[30], [1]⟩],
      ⟨⟨7, 8, 9, .Public, .Public, .Private⟩, 5, [[2], [1]], [7],
        ⟨[4], [3]⟩, [], .Strict⟩⟩ [[1, 2, 3]]
    (by decide) (by decide) (by decide) (by decide)
  exact ⟨by rw [h.1]; decide, h.2⟩

/-! ## Calibration theorems (C2, C3, C4) -/

theorem lt_ceil_log2_succ (b : Nat) (x : Int) (h : (2 : Int) ^ (b - 1) < x) :
    b < ceil_log2 x + 1 := by
  have hx : (0 : Int) < x := lt_of_le_of_lt (by positivity) h
  rw [ceil_log2, if_neg (not_le.mpr hx)]
  have hlt : 2 ^ (b - 1) < x.toNat := by
    rw [Int.lt_toNat]
    exact_mod_cast h
  have := (Nat.pow_lt_iff_lt_clog (by norm_num)).mp hlt
  omega

/-- Claim C2: in a calibration iteration whose forward pass exceeds the current
range (`max_lookup_input > 2^(bits-1)`), calibrate computes
`recommended_bits = ceil(log2 max_lookup_input) + 1`; if that exceeds
`MAX_PUBLIC_SRS - 1` it returns the fatal error immediately, without
retrying; otherwise it sets `bits = recommended_bits`,
`logrows = recommended_bits + 1` and recurses from a fresh forward pass. -/
theorem calibrate_widening_step
    (fwd : GraphSettings → Int)
    (gp : RunArgs → CheckMode → Except String GraphSettings)
    (ms : List (List Nat) → List (List Nat) → List (List Nat) →
      VarVisibility → ModuleSizes)
    (m : ModelData) (fuel : Nat) (s : GraphSettings)
    (hgt : (2 : Int) ^ (s.run_args.bits - 1) < fwd s) :
    (MAX_PUBLIC_SRS - 1 < ceil_log2 (fwd s) + 1 →
      calibrate fwd gp ms m (fuel + 1) s =
        some (.error (calibrate_err_msg (ceil_log2 (fwd s) + 1) s.run_args.scale))) ∧
    (ceil_log2 (fwd s) + 1 ≤ MAX_PUBLIC_SRS - 1 →
      calibrate fwd gp ms m (fuel + 1) s =
        calibrate fwd gp ms m fuel
          { s with run_args :=
              { s.run_args with
                  bits := ceil_log2 (fwd s) + 1,
                  logrows := ceil_log2 (fwd s) + 1 + 1 } }) := by
  constructor <;> intro h
  · rw [calibrate]
    simp only [if_pos hgt, if_neg (by omega : ¬ ceil_log2 (fwd s) + 1 ≤ MAX_PUBLIC_SRS - 1)]
  · rw [calibrate]
    simp only [if_pos hgt, if_pos h]

/-- Claim C3: in a calibration iteration whose forward pass fits the current range
(`max_lookup_input ≤ 2^(bits-1)`), calibrate sets
`bits = ceil(log2 max_lookup_input) + 1`, sets `logrows` to the max of
`bits + 1` and `ceil(log2 (num_constraints + ASSUMED_BLINDING_FACTORS)) + 1`
clamped below by `ASSUMED_BLINDING_FACTORS + 1` and above by
`MAX_PUBLIC_SRS`, and returns the settings re-derived from the model with
those final run args (`new_settings` transcribes `GraphCircuit::new`; it
errs only when the model's own `gen_params` collaborator errs). -/
theorem calibrate_terminal_step
    (fwd : GraphSettings → Int)
    (gp : RunArgs → CheckMode → Except String GraphSettings)
    (ms : List (List Nat) → List (List Nat) → List (List Nat) →
      VarVisibility → ModuleSizes)
    (m : ModelData) (fuel : Nat) (s : GraphSettings)
    (hle : fwd s ≤ (2 : Int) ^ (s.run_args.bits - 1)) :
    calibrate fwd gp ms m (fuel + 1) s =
      some (new_settings gp ms m
        { s.run_args with
            bits := ceil_log2 (fwd s) + 1,
            logrows := min
              (max (max (ceil_log2 (fwd s) + 1 + 1)
                (Nat.clog 2 (s.num_constraints + ASSUMED_BLINDING_FACTORS) + 1))
                (ASSUMED_BLINDING_FACTORS + 1))
              MAX_PUBLIC_SRS }
        s.check_mode) := by
  rw [calibrate]
  simp only [if_neg (not_lt.mpr hle)]

theorem calibrate_fuel_sufficient
    (fwd : GraphSettings → Int)
    (gp : RunArgs → CheckMode → Except String GraphSettings)
    (ms : List (List Nat) → List (List Nat) → List (List Nat) →
      VarVisibility → ModuleSizes)
    (m : ModelData) :
    ∀ fuel s, 1 ≤ fuel → MAX_PUBLIC_SRS + 1 - s.run_args.bits ≤ fuel →
      (calibrate fwd gp ms m fuel s).isSome := by
  intro fuel
  induction fuel with
  | zero => intro s h1 _; omega
  | succ f ih =>
    intro s h1 h2
    have hM : MAX_PUBLIC_SRS = 26 := rfl
    by_cases hgt : (2 : Int) ^ (s.run_args.bits - 1) < fwd s
    · by_cases hrb : ceil_log2 (fwd s) + 1 ≤ MAX_PUBLIC_SRS - 1
      · have hmono := lt_ceil_log2_succ s.run_args.bits (fwd s) hgt
        rw [calibrate]
        simp only [if_pos hgt, if_pos hrb]
        apply ih
        · omega
        · show MAX_PUBLIC_SRS + 1 - (ceil_log2 (fwd s) + 1) ≤ f
          omega
      · rw [calibrate]
        simp only [if_pos hgt, if_neg hrb, Option.isSome_some]
    · rw [calibrate]
      simp only [if_neg hgt, Option.isSome_some]

/-- Claim C4: whenever a calibration iteration takes the widening branch
(`max_lookup_input > 2^(bits-1)`), the recommended bit-width it installs is
strictly greater than the current `bits` — the loop never decreases `bits` —
and the recursion terminates within the fixed ceiling:
`MAX_PUBLIC_SRS + 1` iterations always produce an answer (the fuelled
transcription never runs out). -/
theorem calibrate_widening_monotone_and_bounded
    (fwd : GraphSettings → Int)
    (gp : RunArgs → CheckMode → Except String GraphSettings)
    (ms : List (List Nat) → List (List Nat) → List (List Nat) →
      VarVisibility → ModuleSizes)
    (m : ModelData) (s : GraphSettings)
    (hgt : (2 : Int) ^ (s.run_args.bits - 1) < fwd s) :
    s.run_args.bits < ceil_log2 (fwd s) + 1 ∧
    (calibrate fwd gp ms m (MAX_PUBLIC_SRS + 1) s).isSome := by
  refine ⟨lt_ceil_log2_succ s.run_args.bits (fwd s) hgt, ?_⟩
  exact calibrate_fuel_sufficient fwd gp ms m (MAX_PUBLIC_SRS + 1) s (by omega) (by omega)

/-- Claim C2 witness: the widening step at a concrete state (`bits = 4`, forward
max 300, so `2^3 < 300`), with the hypothesis discharged by evaluation. -/
theorem calibrate_widening_step_witness :
    (2 : Int) ^ ((4 : Nat) - 1) < 300 ∧
    ((MAX_PUBLIC_SRS - 1 < ceil_log2 300 + 1 →
      calibrate (fun _ => (300 : Int))
          (fun ra cm => .ok ⟨ra, 100, [], [], ⟨[], []⟩, [], cm⟩)
          (fun _ _ _ _ => ⟨[], []⟩) ⟨[], [], [], [], []⟩ (5 + 1)
          ⟨⟨7, 4, 5, .Public, .Public, .Private⟩, 100, [], [], ⟨[], []⟩, [], .Strict⟩ =
        some (.error (calibrate_err_msg (ceil_log2 300 + 1) 7))) ∧
    (ceil_log2 300 + 1 ≤ MAX_PUBLIC_SRS - 1 →
      calibrate (fun _ => (300 : Int))
          (fun ra cm => .ok ⟨ra, 100, [], [], ⟨[], []⟩, [], cm⟩)
          (fun _ _ _ _ => ⟨[], []⟩) ⟨[], [], [], [], []⟩ (5 + 1)
          ⟨⟨7, 4, 5, .Public, .Public, .Private⟩, 100, [], [], ⟨[], []⟩, [], .Strict⟩ =
        calibrate (fun _ => (300 : Int))
          (fun ra cm => .ok ⟨ra, 100, [], [], ⟨[], []⟩, [], cm⟩)
          (fun _ _ _ _ => ⟨[], []⟩) ⟨[], [], [], [], []⟩ 5
          ⟨⟨7, ceil_log2 300 + 1, ceil_log2 300 + 1 + 1, .Public, .Public, .Private⟩,
            100, [], [], ⟨[], []⟩, [], .Strict⟩)) :=
  ⟨by decide, calibrate_widening_step (fun _ => (300 : Int)) (fun ra cm => .ok ⟨ra, 100, [], [], ⟨[], []⟩, [], cm⟩) (fun _ _ _ _ => ⟨[], []⟩) ⟨[], [], [], [], []⟩ 5 ⟨⟨7, 4, 5, .Public, .Public, .Private⟩, 100, [], [], ⟨[], []⟩, [], .Strict⟩ (by decide)⟩

/-- Claim C3 witness: the terminal step at a concrete state (`bits = 15`, forward
max 300, so `300 ≤ 2^14`), with the hypothesis discharged by evaluation. -/
theorem calibrate_terminal_step_witness :
    (300 : Int) ≤ 2 ^ ((15 : Nat) - 1) ∧
    calibrate (fun _ => (300 : Int))
        (fun ra cm => .ok ⟨ra, 100, [], [], ⟨[], []⟩, [], cm⟩)
        (fun _ _ _ _ => ⟨[], []⟩) ⟨[], [], [], [], []⟩ (5 + 1)
        ⟨⟨7, 15, 16, .Public, .Public, .Private⟩, 100, [], [], ⟨[], []⟩, [], .Strict⟩ =
      some (new_settings
        (fun ra cm => .ok ⟨ra, 100, [], [], ⟨[], []⟩, [], cm⟩)
        (fun _ _ _ _ => ⟨[], []⟩) ⟨[], [], [], [], []⟩
        ⟨7, ceil_log2 300 + 1,
          min (max (max (ceil_log2 300 + 1 + 1)
            (Nat.clog 2 (100 + ASSUMED_BLINDING_FACTORS) + 1))
            (ASSUMED_BLINDING_FACTORS + 1)) MAX_PUBLIC_SRS,
          .Public, .Public, .Private⟩
        .Strict) :=
  ⟨by decide, calibrate_terminal_step (fun _ => (300 : Int)) (fun ra cm => .ok ⟨ra, 100, [], [], ⟨[], []⟩, [], cm⟩) (fun _ _ _ _ => ⟨[], []⟩) ⟨[], [], [], [], []⟩ 5 ⟨⟨7, 15, 16, .Public, .Public, .Private⟩, 100, [], [], ⟨[], []⟩, [], .Strict⟩ (by decide)⟩

/-- Claim C4 witness: the monotonicity-and-termination theorem at a concrete state
(`bits = 4`, forward max 300), with the hypothesis discharged by
evaluation. -/
theorem calibrate_widening_monotone_and_bounded_witness :
    (2 : Int) ^ ((4 : Nat) - 1) < 300 ∧
    ((4 : Nat) < ceil_log2 300 + 1 ∧
      (calibrate (fun _ => (300 : Int))
          (fun ra cm => .ok ⟨ra, 100, [], [], ⟨[], []⟩, [], cm⟩)
          (fun _ _ _ _ => ⟨[], []⟩) ⟨[], [], [], [], []⟩ (MAX_PUBLIC_SRS + 1)
          ⟨⟨7, 4, 5, .Public, .Public, .Private⟩, 100, [], [], ⟨[], []⟩, [],
            .Strict⟩).isSome) :=
  ⟨by decide, calibrate_widening_monotone_and_bounded (fun _ => (300 : Int)) (fun ra cm => .ok ⟨ra, 100, [], [], ⟨[], []⟩, [], cm⟩) (fun _ _ _ _ => ⟨[], []⟩) ⟨[], [], [], [], []⟩ ⟨⟨7, 4, 5, .Public, .Public, .Private⟩, 100, [], [], ⟨[], []⟩, [], .Strict⟩ (by decide)⟩

/-! ## C5: visibility precondition on on-chain input population -/

/-- Claim C5 counterexample: the claim "every attempt to populate a
private-visibility input tensor from an on-chain data source fails before
any network call" is false on the generic loading path: `load_graph_input` /
`process_data_source` perform no visibility check, so a circuit whose input
visibility is `Private`, fed an on-chain input source, connects to the
endpoint, reads and quantizes on chain, and succeeds — the network-call
trace is non-empty, starting with the connection setup, and no error is
returned at all. -/
theorem process_data_source_no_visibility_check_cex :
    (⟨[], [],
        ⟨⟨7, 4, 5, .Private, .Public, .Private⟩, 0, [], [], ⟨[], []⟩, [], .Strict⟩⟩ :
      GraphCircuitState).settings.run_args.input_visibility = .Private ∧
    load_graph_input
        ⟨.ok (), .ok [3], fun _ _ => .ok [3], fun _ _ _ _ => .ok ([], ⟨"", []⟩)⟩
        ⟨[], [],
          ⟨⟨7, 4, 5, .Private, .Public, .Private⟩, 0, [], [], ⟨[], []⟩, [], .Strict⟩⟩
        ⟨[[1]], [[1]], [7], [7], []⟩
        (.OnChain ⟨"http://localhost:8545", ["call0"]⟩) =
      ([.setup_eth_backend (some "http://localhost:8545"), .read_on_chain_inputs,
          .evm_quantize],
        .ok [⟨[3], [1]⟩]) := by
  refine ⟨rfl, ?_⟩
  rfl

/-- Claim C5 amended: the visibility precondition holds where the source places
it — in `populate_on_chain_test_data`: when the test requests an on-chain
input and the input visibility is not public, the routine fails with the
"private data" error having made no network call and no witness-source
read (the generic `process_data_source` path, by contrast, performs no such
check — see the counterexample). -/
theorem populate_private_input_rejected_before_network
    (o : EthOracle) (st : GraphCircuitState) (m : ModelData)
    (data : GraphWitness) (t : TestOnChainData)
    (hsrc : t.input_source = TestDataSource.OnChain)
    (hvis : st.settings.run_args.input_visibility.is_public = false) :
    populate_on_chain_test_data o st m data t =
      ([], [], .error "Cannot use on-chain data source as private data") := by
  have hphase : populate_input_phase o st m data t =
      ([], [], .error "Cannot use on-chain data source as private data") := by
    simp [populate_input_phase, hsrc, hvis]
  simp [populate_on_chain_test_data, hphase]

/-- Claim C5 witness: the amended theorem at a concrete circuit with a private
input visibility and an on-chain test input source, hypotheses discharged by
evaluation. -/
theorem populate_private_input_rejected_before_network_witness :
    (⟨none, .OnChain, .File⟩ : TestOnChainData).input_source = TestDataSource.OnChain ∧
    (⟨[], [],
        ⟨⟨7, 4, 5, .Private, .Public, .Private⟩, 0, [], [], ⟨[], []⟩, [], .Strict⟩⟩ :
      GraphCircuitState).settings.run_args.input_visibility.is_public = false ∧
    populate_on_chain_test_data
        ⟨.ok (), .ok [3], fun _ _ => .ok [3], fun _ _ _ _ => .ok ([], ⟨"", []⟩)⟩
        ⟨[], [],
          ⟨⟨7, 4, 5, .Private, .Public, .Private⟩, 0, [], [], ⟨[], []⟩, [], .Strict⟩⟩
        ⟨[[1]], [[1]], [7], [7], []⟩
        ⟨.File [[11]], .File [[21]]⟩
        ⟨none, .OnChain, .File⟩ =
      ([], [], .error "Cannot use on-chain data source as private data") :=
  ⟨by decide, by decide,
    populate_private_input_rejected_before_network
      ⟨.ok (), .ok [3], fun _ _ => .ok [3], fun _ _ _ _ => .ok ([], ⟨"", []⟩)⟩
      ⟨[], [],
        ⟨⟨7, 4, 5, .Private, .Public, .Private⟩, 0, [], [], ⟨[], []⟩, [], .Strict⟩⟩
      ⟨[[1]], [[1]], [7], [7], []⟩
      ⟨.File [[11]], .File [[21]]⟩
      ⟨none, .OnChain, .File⟩ (by decide) (by decide)⟩

/-! ## C7: on-chain reshape arity -/

/-- Claim C7 (code bug): `load_on_chain_data` zips the single concatenated
quantized vector (`vec![quantized_evm_inputs]`, a one-element vector)
against the declared shapes, so it can never return one tensor per declared
shape.  Evaluated at the failing input — two declared `[1]` shapes and a
successfully fetched, quantized two-element value set `[1, 2]` — it panics
on the reshape of the whole vector to the first shape instead of returning
two tensors; and with shapes `[2], [1]` and the same values it silently
returns a single tensor holding both values, dropping the second shape. -/
theorem load_on_chain_data_drops_trailing_shapes :
    load_on_chain_data
        ⟨.ok (), .ok [1, 2], fun _ _ => .ok [1, 2], fun _ _ _ _ => .ok ([], ⟨"", []⟩)⟩
        ⟨"rpc", ["a", "b"]⟩ [[1], [1]] [7, 7] =
      ([.setup_eth_backend (some "rpc"), .read_on_chain_inputs, .evm_quantize],
        .error "panic: dimension mismatch on reshape") ∧
    load_on_chain_data
        ⟨.ok (), .ok [1, 2], fun _ _ => .ok [1, 2], fun _ _ _ _ => .ok ([], ⟨"", []⟩)⟩
        ⟨"rpc", ["a", "b"]⟩ [[2], [1]] [7, 7] =
      ([.setup_eth_backend (some "rpc"), .read_on_chain_inputs, .evm_quantize],
        .ok [⟨[1, 2], [2]⟩]) ∧
    ([⟨[1, 2], [2]⟩] : List (Tensor Int)).length ≠ ([[2], [1]] : List (List Nat)).length := by
  refine ⟨rfl, rfl, by decide⟩

/-! ## C8: the scale-7 quantization scenario -/

set_option maxRecDepth 16000 in
/-- Claim C8: loading the file input `[1.5]` at scale 7 with one declared `[1]`
shape quantizes it to `round(1.5 * 2^7) = 192`, and for the
single-input, single-output circuit with both visibilities public and no
modules active, `prepare_public_inputs` yields `[[192], [o]]` where `o` is
the quantized output. -/
theorem scenario_scale7_public_inputs (o : Int) :
    load_file_data [[(3 : Rat) / 2]] [[1]] [7] = .ok [⟨[192], [1]⟩] ∧
    prepare_public_inputs
        ⟨[⟨[192], [1]⟩], [⟨[o], [1]⟩],
          ⟨⟨7, 16, 17, .Public, .Public, .Private⟩, 0, [[1], [1]], [7], ⟨[], []⟩, [],
            .Strict⟩⟩ [] =
      [[192], [o]] := by
  constructor
  · have hround : round (((3 : Rat) / 2) * (2 : Rat) ^ (7 : Nat) + 0) = 192 := by
      norm_num [round_eq]
    have hq : quantize_float ((3 : Rat) / 2) 0 7 = .ok 192 := by
      norm_num [quantize_float, hround, I128_MIN, I128_MAX]
    simp [load_file_data, exMapM, hq, Except.map, Tensor.ofList, Tensor.reshape,
      i128_to_felt]
  · rfl

/-! ## C9: synthesis with an empty constant set -/

/-- Claim C9 counterexample: with an empty constant set, `synthesize` does not
skip the parameter-module layout step — the `GraphModules::layout` call for
the param visibility is still made, handed an empty tensor list — so the
step sequence is not the four-step one the claim describes, and the
param-layout step (with zero tensors) occurs in it. -/
theorem synthesize_empty_consts_param_layout_not_skipped_cex :
    synthesize_steps [] 1 ≠
      [.input_module_layout 1, .new_region, .model_layout, .output_module_layout] ∧
    SynthStep.param_module_layout 0 ∈ synthesize_steps [] 1 := by
  decide

/-- Claim C9 amended: with an empty constant set, `synthesize` skips the constant
flattening and the `replace_consts` substitution, but still makes the
param-module layout call over an empty tensor list, then proceeds to the
fresh region, the model layout and the output-module layout. -/
theorem synthesize_empty_consts_steps (n : Nat) :
    synthesize_steps [] n =
      [.input_module_layout n, .param_module_layout 0, .new_region, .model_layout,
        .output_module_layout] ∧
    SynthStep.replace_consts ∉ synthesize_steps [] n ∧
    SynthStep.flatten_params ∉ synthesize_steps [] n := by
  refine ⟨rfl, ?_, ?_⟩ <;> simp [synthesize_steps]

/-! ## C10: the output-population fallback branch -/

/-- Claim C10 counterexample: the claim says the fallback output-population branch
reads `input_data` with the model's input scales and shapes; in fact it
reads `input_data` with the model's input shapes but the model's *output*
scales.  At a model with input scale 7 and output scale 3, the recorded
witness reads are the input read `(input_data, input shapes, [7])` followed
by the output-population read `(input_data, input shapes, [3])` — whose
scales are the output scales, not the input scales. -/
theorem populate_output_fallback_scales_cex :
    (populate_on_chain_test_data
        ⟨.ok (), .ok [3], fun _ _ => .ok [3], fun _ _ _ _ => .ok ([], ⟨"", []⟩)⟩
        ⟨[], [],
          ⟨⟨7, 4, 5, .Public, .Public, .Private⟩, 0, [], [], ⟨[], []⟩, [], .Strict⟩⟩
        ⟨[[1]], [[2]], [7], [3], []⟩
        ⟨.File [[11]], .File [[21, 22]]⟩
        ⟨none, .File, .File⟩).2.1 =
      [⟨.File [[11]], [[1]], [7]⟩, ⟨.File [[11]], [[1]], [3]⟩] ∧
    (⟨[[1]], [[2]], [7], [3], []⟩ : ModelData).input_scales ≠ [3] := by
  refine ⟨rfl, by decide⟩

/-- Claim C10 amended: when the requested test output source is not on-chain, the
output-population branch populates the circuit's outputs by reading the
witness record's `input_data` with the model's input shapes and the model's
*output* scales (rather than `output_data` with the output shapes). -/
theorem populate_output_fallback_reads_input_data
    (o : EthOracle) (st : GraphCircuitState) (m : ModelData)
    (data : GraphWitness) (t : TestOnChainData)
    (h : t.output_source = TestDataSource.File) :
    populate_output_phase o st m data t =
      ((process_witness_source o data.input_data m.input_shapes m.output_scales).1,
        [⟨data.input_data, m.input_shapes, m.output_scales⟩],
        match (process_witness_source o data.input_data m.input_shapes m.output_scales).2 with
        | .error e => .error e
        | .ok ts => .ok (ts, data.output_data)) := by
  simp [populate_output_phase, h]

/-- Claim C10 witness: the amended theorem at the concrete model of the
counterexample, hypothesis discharged by evaluation. -/
theorem populate_output_fallback_reads_input_data_witness :
    (⟨none, .File, .File⟩ : TestOnChainData).output_source = TestDataSource.File ∧
    populate_output_phase
        ⟨.ok (), .ok [3], fun _ _ => .ok [3], fun _ _ _ _ => .ok ([], ⟨"", []⟩)⟩
        ⟨[], [],
          ⟨⟨7, 4, 5, .Public, .Public, .Private⟩, 0, [], [], ⟨[], []⟩, [], .Strict⟩⟩
        ⟨[[1]], [[2]], [7], [3], []⟩
        ⟨.File [[11]], .File [[21, 22]]⟩
        ⟨none, .File, .File⟩ =
      ((process_witness_source
          ⟨.ok (), .ok [3], fun _ _ => .ok [3], fun _ _ _ _ => .ok ([], ⟨"", []⟩)⟩
          (.File [[11]]) [[1]] [3]).1,
        [⟨.File [[11]], [[1]], [3]⟩],
        match (process_witness_source
            ⟨.ok (), .ok [3], fun _ _ => .ok [3], fun _ _ _ _ => .ok ([], ⟨"", []⟩)⟩
            (.File [[11]]) [[1]] [3]).2 with
        | .error e => .error e
        | .ok ts => .ok (ts, WitnessSource.File [[21, 22]])) :=
  ⟨by decide,
    populate_output_fallback_reads_input_data
      ⟨.ok (), .ok [3], fun _ _ => .ok [3], fun _ _ _ _ => .ok ([], ⟨"", []⟩)⟩
      ⟨[], [],
        ⟨⟨7, 4, 5, .Public, .Public, .Private⟩, 0, [], [], ⟨[], []⟩, [], .Strict⟩⟩
      ⟨[[1]], [[2]], [7], [3], []⟩
      ⟨.File [[11]], .File [[21, 22]]⟩
      ⟨none, .File, .File⟩ (by decide)⟩

end EzklGraph
